import Mathlib

/-!
Verification development for the student-transfer administration schema
(`app/models.py`).  The enums and record structures below are a shallow
embedding of the SQLModel table and request/response classes; the stateful
operations (transfer creation, lifecycle transitions, document
verification, uniqueness-checked inserts, statistics recomputation and
request validation) are not present in the source tree, so they are
modelled from the specification where indicated.
-/

/-- Embeds `UserRole` (models.py lines 8-12). -/
inductive UserRole where
| school_admin
| teacher
| district_operator
| headmaster
deriving DecidableEq, Inhabited

/-- Embeds `TransferStatus` (models.py lines 15-22): the seven lifecycle
states of a student transfer. -/
inductive TransferStatus where
| draft
| submitted
| document_verification
| pending_approval
| approved
| rejected
| completed
deriving DecidableEq, Inhabited

/-- Embeds `TransferType` (models.py lines 25-27). -/
inductive TransferType where
| incoming
| outgoing
deriving DecidableEq, Inhabited

/-- Embeds `DocumentType` (models.py lines 30-35). -/
inductive DocumentType where
| birth_certificate
| report_card
| family_card
| transfer_letter
| other
deriving DecidableEq, Inhabited

/-- Abstraction of Python `datetime` values: a calendar timestamp.  Only
equality and the year/month projections are used by the model. -/
structure DateTime where
  year : Int
  month : Int
  day : Int
  hour : Int
  minute : Int
  second : Int
deriving DecidableEq, Inhabited

/-- Embeds the persistent `User` table (models.py lines 47-60); the
`Relationship` attributes are derived query-time relations and are not
stored fields. -/
structure User where
  id : Option Int
  username : String
  email : String
  password_hash : String
  full_name : String
  role : UserRole
  is_active : Bool
  phone : Option String
  created_at : DateTime
  updated_at : DateTime
  last_login : Option DateTime
deriving DecidableEq, Inhabited

/-- Embeds the persistent `School` table (models.py lines 68-83). -/
structure School where
  id : Option Int
  npsn : String
  name : String
  address : String
  district : String
  regency : String
  province : String
  postal_code : Option String
  phone : Option String
  email : Option String
  headmaster_name : String
  is_active : Bool
  created_at : DateTime
deriving DecidableEq, Inhabited

/-- Embeds the persistent `Student` table (models.py lines 90-106). -/
structure Student where
  id : Option Int
  nisn : String
  nis : Option String
  full_name : String
  birth_place : String
  birth_date : DateTime
  gender : String
  religion : String
  address : String
  parent_name : String
  parent_phone : Option String
  current_grade : String
  created_at : DateTime
  updated_at : DateTime
deriving DecidableEq, Inhabited

/-- Embeds the persistent `StudentTransfer` table (models.py lines
112-139), the aggregate root of the lifecycle. -/
structure StudentTransfer where
  id : Option Int
  transfer_number : String
  student_id : Int
  transfer_type : TransferType
  origin_school_id : Int
  destination_school_id : Int
  transfer_reason : String
  status : TransferStatus
  grade_from : String
  grade_to : String
  semester : String
  academic_year : String
  transfer_date : DateTime
  created_by_id : Int
  approved_by_id : Option Int
  approval_date : Option DateTime
  approval_notes : Option String
  priority_level : String
  notes : Option String
  created_at : DateTime
  updated_at : DateTime
deriving DecidableEq, Inhabited

/-- Embeds the persistent `TransferDocument` table (models.py lines
152-166). -/
structure TransferDocument where
  id : Option Int
  transfer_id : Int
  document_type : DocumentType
  file_name : String
  file_path : String
  file_size : Int
  mime_type : String
  is_verified : Bool
  verified_by_id : Option Int
  verified_at : Option DateTime
  verification_notes : Option String
  uploaded_at : DateTime
deriving DecidableEq, Inhabited

/-- Embeds the persistent `TransferStatusHistory` table (models.py lines
172-182): one append-only ledger row per status change.  `previous_status`
is declared `Optional` in the source while `new_status` and
`changed_by_id` are required columns. -/
structure TransferStatusHistory where
  id : Option Int
  transfer_id : Int
  previous_status : Option TransferStatus
  new_status : TransferStatus
  changed_by_id : Int
  change_reason : Option String
  notes : Option String
  created_at : DateTime
deriving DecidableEq, Inhabited

/-- Embeds the persistent `SystemSettings` table (models.py lines
207-216). -/
structure SystemSettings where
  id : Option Int
  setting_key : String
  setting_value : String
  description : Option String
  is_active : Bool
  created_at : DateTime
  updated_at : DateTime
deriving DecidableEq, Inhabited

/-- Embeds the persistent `TransferStatistics` table (models.py lines
234-246): one aggregate row per (year, month) period. -/
structure TransferStatistics where
  id : Option Int
  year : Int
  month : Int
  total_incoming : Int
  total_outgoing : Int
  total_approved : Int
  total_rejected : Int
  total_pending : Int
  created_at : DateTime
  updated_at : DateTime
deriving DecidableEq, Inhabited

/-- Embeds the transient `UserCreate` request shape (models.py lines
250-256), including its declared `min_length=8, max_length=100` password
constraint carried separately by the validator below. -/
structure UserCreate where
  username : String
  email : String
  password : String
  full_name : String
  role : UserRole
  phone : Option String
deriving DecidableEq, Inhabited

/-- Embeds the transient `TransferCreate` request shape (models.py lines
313-324). -/
structure TransferCreate where
  student_id : Int
  transfer_type : TransferType
  origin_school_id : Int
  destination_school_id : Int
  transfer_reason : String
  grade_from : String
  grade_to : String
  semester : String
  academic_year : String
  priority_level : String
  notes : Option String
deriving DecidableEq, Inhabited

/-- Error kinds of the specification's error-handling design (§7) that the
modelled lifecycle operations can raise. -/
inductive TransferError where
| consistencyViolation
| invalidTransition
deriving DecidableEq, Inhabited

/-- Storage-layer error kind (§7): a duplicate unique key, naming the
offending field. -/
inductive StorageError where
| uniquenessConflict (field : String)
deriving DecidableEq, Inhabited

/-- Validation-boundary error kind (§7): a field constraint violation,
naming the offending field. -/
inductive ValidationError where
| validationError (field : String)
deriving DecidableEq, Inhabited

/-- Modelled from the spec (§4.1): the allowed transition graph
`draft → submitted → document_verification → pending_approval →
{approved | rejected} → completed`, with rejected terminal and approved
allowed to proceed to completed.  The source schema leaves this graph
implicit in the `TransferStatus` enum ordering. -/
def allowedTransition : TransferStatus → TransferStatus → Bool
| .draft, .submitted => true
| .submitted, .document_verification => true
| .document_verification, .pending_approval => true
| .pending_approval, .approved => true
| .pending_approval, .rejected => true
| .approved, .completed => true
| _, _ => false

/-- The statuses in which the approval fields must be populated:
approved, rejected and completed (spec §3). -/
def isApprovalStatus : TransferStatus → Bool
| .approved => true
| .rejected => true
| .completed => true
| _ => false

/-- Lifecycle state of one transfer: the `StudentTransfer` row together
with its chronologically ordered `TransferStatusHistory` rows. -/
structure TransferState where
  transfer : StudentTransfer
  history : List TransferStatusHistory
deriving DecidableEq, Inhabited

/-- Modelled from the spec: transfer creation, absent from the source
tree.  It checks the §3 invariant `origin_school_id ≠
destination_school_id` (failing with `ConsistencyViolation` and producing
no record), stores the row with the `status` default
`TransferStatus.DRAFT` of models.py line 122 and the approval fields at
their `None` defaults, and appends the initial history row (`None →
draft`), so that the §8 example run ends with five history entries. -/
def createTransfer (req : TransferCreate) (transferNumber : String)
    (tid : Int) (creatorId : Int) (now : DateTime) :
    Except TransferError TransferState :=
  if req.origin_school_id = req.destination_school_id then
    .error .consistencyViolation
  else
    .ok
      { transfer :=
          { id := some tid
            transfer_number := transferNumber
            student_id := req.student_id
            transfer_type := req.transfer_type
            origin_school_id := req.origin_school_id
            destination_school_id := req.destination_school_id
            transfer_reason := req.transfer_reason
            status := .draft
            grade_from := req.grade_from
            grade_to := req.grade_to
            semester := req.semester
            academic_year := req.academic_year
            transfer_date := now
            created_by_id := creatorId
            approved_by_id := none
            approval_date := none
            approval_notes := none
            priority_level := req.priority_level
            notes := req.notes
            created_at := now
            updated_at := now }
        history :=
          [{ id := none
             transfer_id := tid
             previous_status := none
             new_status := .draft
             changed_by_id := creatorId
             change_reason := none
             notes := none
             created_at := now }] }

/-- Modelled from the spec (§4.1): the mutation of the parent transfer on
a transition.  A transition to approved or rejected additionally
populates `approval_date`, `approved_by_id` and `approval_notes`; other
transitions leave the approval fields untouched. -/
def applyApproval (t : StudentTransfer) (target : TransferStatus)
    (actorId : Int) (anotes : Option String) (now : DateTime) :
    StudentTransfer :=
  if target = .approved ∨ target = .rejected then
    { t with
        status := target
        approved_by_id := some actorId
        approval_date := some now
        approval_notes := anotes
        updated_at := now }
  else
    { t with status := target, updated_at := now }

/-- Modelled from the spec (§4.1): the history row appended by a
transition, capturing previous_status, new_status, the actor and an
optional reason and notes. -/
def mkHistoryEntry (t : StudentTransfer) (target : TransferStatus)
    (actorId : Int) (reason hnotes : Option String) (now : DateTime) :
    TransferStatusHistory :=
  { id := none
    transfer_id := t.id.getD 0
    previous_status := some t.status
    new_status := target
    changed_by_id := actorId
    change_reason := reason
    notes := hnotes
    created_at := now }

/-- Modelled from the spec (§4.1): a status transition, absent from the
source tree.  A transition not in the allowed graph is rejected with
`InvalidTransition`; an allowed one atomically updates the transfer and
appends the history row. -/
def applyTransition (s : TransferState) (target : TransferStatus)
    (actorId : Int) (anotes reason hnotes : Option String)
    (now : DateTime) : Except TransferError TransferState :=
  if allowedTransition s.transfer.status target then
    .ok
      { transfer := applyApproval s.transfer target actorId anotes now
        history :=
          s.history ++ [mkHistoryEntry s.transfer target actorId reason hnotes now] }
  else
    .error .invalidTransition

/-- The transfer lifecycle states reachable through the modelled
operations: a successful creation, followed by successful transitions. -/
inductive Reachable : TransferState → Prop
| created (req : TransferCreate) (tn : String) (tid creatorId : Int)
    (now : DateTime) (s : TransferState) :
    createTransfer req tn tid creatorId now = .ok s → Reachable s
| stepped (s : TransferState) (target : TransferStatus) (actorId : Int)
    (anotes reason hnotes : Option String) (now : DateTime)
    (s2 : TransferState) : Reachable s →
    applyTransition s target actorId anotes reason hnotes now = .ok s2 →
    Reachable s2

/-- A list of statuses is a walk of the §4.1 graph played from draft:
it starts at draft and every consecutive pair is an allowed edge
(no skipped states). -/
def isStatusWalk (l : List TransferStatus) : Prop :=
  l.head? = some TransferStatus.draft ∧
  List.Chain' (fun a b => allowedTransition a b = true) l

/-- The history rows are correctly linked when the first one carries the
given previous status and each later one carries its predecessor's
`new_status`. -/
def linkedFrom : Option TransferStatus → List TransferStatusHistory → Prop
| _, [] => True
| p, e :: rest => e.previous_status = p ∧ linkedFrom (some e.new_status) rest

/-- Modelled from the spec (§4.2): document verification, absent from the
source tree.  It marks the document verified and records the verifier,
timestamp and notes; every other field is left unchanged, so re-verifying
an already verified document is idempotent on the verification flag. -/
def verifyDocument (d : TransferDocument) (verifierId : Int)
    (now : DateTime) (vnotes : Option String) : TransferDocument :=
  { d with
      is_verified := true
      verified_by_id := some verifierId
      verified_at := some now
      verification_notes := vnotes }

/-- The relational store restricted to the tables that carry declared
uniqueness constraints in models.py (username/email, npsn, nisn,
transfer_number, setting_key). -/
structure Database where
  users : List User
  schools : List School
  students : List Student
  student_transfers : List StudentTransfer
  system_settings : List SystemSettings
deriving DecidableEq, Inhabited

/-- Modelled from the spec (§6): storage-layer insertion into `users`
enforcing the `unique=True` constraints of models.py lines 51-52.  On a
duplicate it reports `UniquenessConflict` naming the offending field and
returns the store unchanged. -/
def insertUser (db : Database) (u : User) :
    Database × Option StorageError :=
  if db.users.any (fun v => v.username == u.username) then
    (db, some (.uniquenessConflict "username"))
  else if db.users.any (fun v => v.email == u.email) then
    (db, some (.uniquenessConflict "email"))
  else ({ db with users := db.users ++ [u] }, none)

/-- Modelled from the spec (§6): storage-layer insertion into `schools`
enforcing the `unique=True` npsn constraint of models.py line 72. -/
def insertSchool (db : Database) (s : School) :
    Database × Option StorageError :=
  if db.schools.any (fun v => v.npsn == s.npsn) then
    (db, some (.uniquenessConflict "npsn"))
  else ({ db with schools := db.schools ++ [s] }, none)

/-- Modelled from the spec (§6): storage-layer insertion into `students`
enforcing the `unique=True` nisn constraint of models.py line 94. -/
def insertStudent (db : Database) (s : Student) :
    Database × Option StorageError :=
  if db.students.any (fun v => v.nisn == s.nisn) then
    (db, some (.uniquenessConflict "nisn"))
  else ({ db with students := db.students ++ [s] }, none)

/-- Modelled from the spec (§6): storage-layer insertion into
`student_transfers` enforcing the `unique=True` transfer_number
constraint of models.py line 116. -/
def insertStudentTransfer (db : Database) (t : StudentTransfer) :
    Database × Option StorageError :=
  if db.student_transfers.any (fun v => v.transfer_number == t.transfer_number) then
    (db, some (.uniquenessConflict "transfer_number"))
  else ({ db with student_transfers := db.student_transfers ++ [t] }, none)

/-- Modelled from the spec (§6): storage-layer insertion into
`system_settings` enforcing the `unique=True` setting_key constraint of
models.py line 211. -/
def insertSystemSettings (db : Database) (s : SystemSettings) :
    Database × Option StorageError :=
  if db.system_settings.any (fun v => v.setting_key == s.setting_key) then
    (db, some (.uniquenessConflict "setting_key"))
  else ({ db with system_settings := db.system_settings ++ [s] }, none)

/-- The uniqueness invariant the storage layer maintains: each declared
unique column holds pairwise distinct values across its table. -/
def dbKeysUnique (db : Database) : Prop :=
  (db.users.map User.username).Nodup ∧
  (db.users.map User.email).Nodup ∧
  (db.schools.map School.npsn).Nodup ∧
  (db.students.map Student.nisn).Nodup ∧
  (db.student_transfers.map StudentTransfer.transfer_number).Nodup ∧
  (db.system_settings.map SystemSettings.setting_key).Nodup

/-- Character class `[a-zA-Z0-9_.+-]` of the local part of the email
regex on models.py line 52. -/
def isEmailLocalChar (c : Char) : Bool :=
  c.isAlphanum || c == '_' || c == '.' || c == '+' || c == '-'

/-- Character class `[a-zA-Z0-9-]` of the first domain label of the email
regex on models.py line 52. -/
def isEmailDomainChar (c : Char) : Bool :=
  c.isAlphanum || c == '-'

/-- Character class `[a-zA-Z0-9-.]` of the part after the mandatory dot
in the email regex on models.py line 52. -/
def isEmailTailChar (c : Char) : Bool :=
  c.isAlphanum || c == '-' || c == '.'

/-- Matcher for the domain side `[a-zA-Z0-9-]+\.[a-zA-Z0-9-.]+` of the
email regex: a nonempty dot-free label, one dot, then a nonempty tail.
Splitting at the first dot is exact because the first label admits no
dot. -/
def emailDomainMatch (l : List Char) : Bool :=
  let a := l.takeWhile (fun c => !(c == '.'))
  match l.drop a.length with
  | '.' :: rest =>
      !a.isEmpty && a.all isEmailDomainChar &&
      !rest.isEmpty && rest.all isEmailTailChar
  | _ => false

/-- Executable form of the full email regex
`^[a-zA-Z0-9_.+-]+@[a-zA-Z0-9-]+\.[a-zA-Z0-9-.]+$` declared on
`User.email` (models.py line 52).  Splitting at the first `@` is exact
because no character class of the regex admits `@`. -/
def emailMatch (s : String) : Bool :=
  let l := s.toList
  let a := l.takeWhile (fun c => !(c == '@'))
  match l.drop a.length with
  | '@' :: rest => !a.isEmpty && a.all isEmailLocalChar && emailDomainMatch rest
  | _ => false

/-- Modelled from the spec (§6): the validation boundary for `UserCreate`
requests, absent from the source tree.  It enforces the max-length
constraints declared on `UserCreate` (models.py lines 250-256), the
password `min_length=8, max_length=100` of line 253, and the email
pattern declared on the persistent `User.email` column (line 52), all
before the request reaches persistence, naming the offending field. -/
def validateUserCreate (r : UserCreate) :
    Except ValidationError UserCreate :=
  if r.username.length > 50 then .error (.validationError "username")
  else if r.email.length > 255 then .error (.validationError "email")
  else if !emailMatch r.email then .error (.validationError "email")
  else if r.password.length < 8 then .error (.validationError "password")
  else if r.password.length > 100 then .error (.validationError "password")
  else if r.full_name.length > 100 then .error (.validationError "full_name")
  else if (r.phone.getD "").length > 20 then .error (.validationError "phone")
  else .ok r

/-- The column constraints declared on the persistent `User` table
(models.py lines 51-57): max lengths and the email regex.  The
`password_hash` column (line 53) carries only `max_length=255` and no
minimum length. -/
def validUserRow (u : User) : Bool :=
  u.username.length ≤ 50 &&
  u.email.length ≤ 255 && emailMatch u.email &&
  u.password_hash.length ≤ 255 &&
  u.full_name.length ≤ 100 &&
  (u.phone.getD "").length ≤ 20

/-- Embeds `NotificationType` (models.py lines 38-43). -/
inductive NotificationType where
| transfer_submitted
| document_required
| approved
| rejected
| completed
deriving DecidableEq, Inhabited

/-- Embeds the transient `UserUpdate` request shape (models.py lines
259-265). -/
structure UserUpdate where
  username : Option String
  email : Option String
  full_name : Option String
  role : Option UserRole
  phone : Option String
  is_active : Option Bool
deriving DecidableEq, Inhabited

/-- Embeds the transient `UserLogin` request shape (models.py lines
268-270). -/
structure UserLogin where
  username : String
  password : String
deriving DecidableEq, Inhabited

/-- Embeds the transient `StudentCreate` request shape (models.py lines
273-284). -/
structure StudentCreate where
  nisn : String
  nis : Option String
  full_name : String
  birth_place : String
  birth_date : DateTime
  gender : String
  religion : String
  address : String
  parent_name : String
  parent_phone : Option String
  current_grade : String
deriving DecidableEq, Inhabited

/-- Embeds the transient `StudentUpdate` request shape (models.py lines
287-297). -/
structure StudentUpdate where
  nis : Option String
  full_name : Option String
  birth_place : Option String
  birth_date : Option DateTime
  gender : Option String
  religion : Option String
  address : Option String
  parent_name : Option String
  parent_phone : Option String
  current_grade : Option String
deriving DecidableEq, Inhabited

/-- Embeds the transient `SchoolCreate` request shape (models.py lines
300-310). -/
structure SchoolCreate where
  npsn : String
  name : String
  address : String
  district : String
  regency : String
  province : String
  postal_code : Option String
  phone : Option String
  email : Option String
  headmaster_name : String
deriving DecidableEq, Inhabited

/-- Embeds the transient `TransferUpdate` request shape (models.py lines
327-336). -/
structure TransferUpdate where
  transfer_reason : Option String
  status : Option TransferStatus
  grade_from : Option String
  grade_to : Option String
  semester : Option String
  academic_year : Option String
  priority_level : Option String
  notes : Option String
  approval_notes : Option String
deriving DecidableEq, Inhabited

/-- Embeds the transient `TransferApproval` request shape (models.py
lines 339-341). -/
structure TransferApproval where
  status : TransferStatus
  approval_notes : String
deriving DecidableEq, Inhabited

/-- Embeds the transient `DocumentUpload` request shape (models.py lines
344-348). -/
structure DocumentUpload where
  document_type : DocumentType
  file_name : String
  file_size : Int
  mime_type : String
deriving DecidableEq, Inhabited

/-- Embeds the transient `NotificationCreate` request shape (models.py
lines 351-357). -/
structure NotificationCreate where
  user_id : Int
  transfer_id : Option Int
  notification_type : NotificationType
  title : String
  message : String
  is_urgent : Bool
deriving DecidableEq, Inhabited

/-- Embeds the transient `TransferReportFilter` request shape (models.py
lines 360-368). -/
structure TransferReportFilter where
  start_date : Option DateTime
  end_date : Option DateTime
  status : Option TransferStatus
  transfer_type : Option TransferType
  origin_school_id : Option Int
  destination_school_id : Option Int
  grade : Option String
  academic_year : Option String
deriving DecidableEq, Inhabited

/-- Embeds the transient `DashboardStats` outbound summary shape
(models.py lines 371-378); its `Dict[str, Any]` trend entries are
abstracted as string association lists.  The source declares no
max-length or pattern constraint on any of its fields. -/
structure DashboardStats where
  total_transfers : Int
  total_incoming : Int
  total_outgoing : Int
  pending_approvals : Int
  approved_this_month : Int
  rejected_this_month : Int
  monthly_trends : List (List (String × String))
deriving DecidableEq, Inhabited

/-- The declared constraints of `UserCreate` (models.py lines 250-256)
together with the email pattern of the `User.email` column (line 52). -/
def userCreateValid (r : UserCreate) : Prop :=
  r.username.length ≤ 50 ∧ r.email.length ≤ 255 ∧
  emailMatch r.email = true ∧ 8 ≤ r.password.length ∧
  r.password.length ≤ 100 ∧ r.full_name.length ≤ 100 ∧
  (r.phone.getD "").length ≤ 20

/-- The declared constraints of `UserUpdate` (models.py lines 259-265)
together with the email pattern of the `User.email` column (line 52) on
a supplied email. -/
def userUpdateValid (r : UserUpdate) : Prop :=
  (r.username.getD "").length ≤ 50 ∧ (r.email.getD "").length ≤ 255 ∧
  r.email.all emailMatch = true ∧ (r.full_name.getD "").length ≤ 100 ∧
  (r.phone.getD "").length ≤ 20

/-- The declared constraints of `UserLogin` (models.py lines 268-270). -/
def userLoginValid (r : UserLogin) : Prop :=
  r.username.length ≤ 50 ∧ r.password.length ≤ 100

/-- The declared constraints of `StudentCreate` (models.py lines
273-284). -/
def studentCreateValid (r : StudentCreate) : Prop :=
  r.nisn.length ≤ 20 ∧ (r.nis.getD "").length ≤ 20 ∧
  r.full_name.length ≤ 100 ∧ r.birth_place.length ≤ 100 ∧
  r.gender.length ≤ 10 ∧ r.religion.length ≤ 20 ∧
  r.address.length ≤ 500 ∧ r.parent_name.length ≤ 100 ∧
  (r.parent_phone.getD "").length ≤ 20 ∧ r.current_grade.length ≤ 10

/-- The declared constraints of `StudentUpdate` (models.py lines
287-297). -/
def studentUpdateValid (r : StudentUpdate) : Prop :=
  (r.nis.getD "").length ≤ 20 ∧ (r.full_name.getD "").length ≤ 100 ∧
  (r.birth_place.getD "").length ≤ 100 ∧ (r.gender.getD "").length ≤ 10 ∧
  (r.religion.getD "").length ≤ 20 ∧ (r.address.getD "").length ≤ 500 ∧
  (r.parent_name.getD "").length ≤ 100 ∧
  (r.parent_phone.getD "").length ≤ 20 ∧
  (r.current_grade.getD "").length ≤ 10

/-- The declared constraints of `SchoolCreate` (models.py lines
300-310); the optional school email carries only a max length in the
source (no pattern is declared on `School.email`, line 80). -/
def schoolCreateValid (r : SchoolCreate) : Prop :=
  r.npsn.length ≤ 20 ∧ r.name.length ≤ 200 ∧ r.address.length ≤ 500 ∧
  r.district.length ≤ 100 ∧ r.regency.length ≤ 100 ∧
  r.province.length ≤ 100 ∧ (r.postal_code.getD "").length ≤ 10 ∧
  (r.phone.getD "").length ≤ 20 ∧ (r.email.getD "").length ≤ 255 ∧
  r.headmaster_name.length ≤ 100

/-- The declared constraints of `TransferCreate` (models.py lines
313-324). -/
def transferCreateValid (r : TransferCreate) : Prop :=
  r.transfer_reason.length ≤ 1000 ∧ r.grade_from.length ≤ 10 ∧
  r.grade_to.length ≤ 10 ∧ r.semester.length ≤ 10 ∧
  r.academic_year.length ≤ 10 ∧ r.priority_level.length ≤ 20 ∧
  (r.notes.getD "").length ≤ 2000

/-- The declared constraints of `TransferUpdate` (models.py lines
327-336). -/
def transferUpdateValid (r : TransferUpdate) : Prop :=
  (r.transfer_reason.getD "").length ≤ 1000 ∧
  (r.grade_from.getD "").length ≤ 10 ∧ (r.grade_to.getD "").length ≤ 10 ∧
  (r.semester.getD "").length ≤ 10 ∧
  (r.academic_year.getD "").length ≤ 10 ∧
  (r.priority_level.getD "").length ≤ 20 ∧
  (r.notes.getD "").length ≤ 2000 ∧
  (r.approval_notes.getD "").length ≤ 1000

/-- The declared constraints of `TransferApproval` (models.py lines
339-341). -/
def transferApprovalValid (r : TransferApproval) : Prop :=
  r.approval_notes.length ≤ 1000

/-- The declared constraints of `DocumentUpload` (models.py lines
344-348). -/
def documentUploadValid (r : DocumentUpload) : Prop :=
  r.file_name.length ≤ 255 ∧ r.mime_type.length ≤ 100

/-- The declared constraints of `NotificationCreate` (models.py lines
351-357). -/
def notificationCreateValid (r : NotificationCreate) : Prop :=
  r.title.length ≤ 200 ∧ r.message.length ≤ 1000

/-- The declared constraints of `TransferReportFilter` (models.py lines
360-368). -/
def transferReportFilterValid (r : TransferReportFilter) : Prop :=
  (r.grade.getD "").length ≤ 10 ∧ (r.academic_year.getD "").length ≤ 10

/-- Modelled from the spec (§6): the validation boundary for
`UserUpdate` requests, enforcing the declared max lengths and the
`User.email` pattern on a supplied email, naming the offending field. -/
def validateUserUpdate (r : UserUpdate) : Except ValidationError UserUpdate :=
  if (r.username.getD "").length > 50 then .error (.validationError "username")
  else if (r.email.getD "").length > 255 then .error (.validationError "email")
  else if !(r.email.all emailMatch) then .error (.validationError "email")
  else if (r.full_name.getD "").length > 100 then .error (.validationError "full_name")
  else if (r.phone.getD "").length > 20 then .error (.validationError "phone")
  else .ok r

/-- Modelled from the spec (§6): the validation boundary for `UserLogin`
requests. -/
def validateUserLogin (r : UserLogin) : Except ValidationError UserLogin :=
  if r.username.length > 50 then .error (.validationError "username")
  else if r.password.length > 100 then .error (.validationError "password")
  else .ok r

/-- Modelled from the spec (§6): the validation boundary for
`StudentCreate` requests. -/
def validateStudentCreate (r : StudentCreate) :
    Except ValidationError StudentCreate :=
  if r.nisn.length > 20 then .error (.validationError "nisn")
  else if (r.nis.getD "").length > 20 then .error (.validationError "nis")
  else if r.full_name.length > 100 then .error (.validationError "full_name")
  else if r.birth_place.length > 100 then .error (.validationError "birth_place")
  else if r.gender.length > 10 then .error (.validationError "gender")
  else if r.religion.length > 20 then .error (.validationError "religion")
  else if r.address.length > 500 then .error (.validationError "address")
  else if r.parent_name.length > 100 then .error (.validationError "parent_name")
  else if (r.parent_phone.getD "").length > 20 then .error (.validationError "parent_phone")
  else if r.current_grade.length > 10 then .error (.validationError "current_grade")
  else .ok r

/-- Modelled from the spec (§6): the validation boundary for
`StudentUpdate` requests. -/
def validateStudentUpdate (r : StudentUpdate) :
    Except ValidationError StudentUpdate :=
  if (r.nis.getD "").length > 20 then .error (.validationError "nis")
  else if (r.full_name.getD "").length > 100 then .error (.validationError "full_name")
  else if (r.birth_place.getD "").length > 100 then .error (.validationError "birth_place")
  else if (r.gender.getD "").length > 10 then .error (.validationError "gender")
  else if (r.religion.getD "").length > 20 then .error (.validationError "religion")
  else if (r.address.getD "").length > 500 then .error (.validationError "address")
  else if (r.parent_name.getD "").length > 100 then .error (.validationError "parent_name")
  else if (r.parent_phone.getD "").length > 20 then .error (.validationError "parent_phone")
  else if (r.current_grade.getD "").length > 10 then .error (.validationError "current_grade")
  else .ok r

/-- Modelled from the spec (§6): the validation boundary for
`SchoolCreate` requests. -/
def validateSchoolCreate (r : SchoolCreate) :
    Except ValidationError SchoolCreate :=
  if r.npsn.length > 20 then .error (.validationError "npsn")
  else if r.name.length > 200 then .error (.validationError "name")
  else if r.address.length > 500 then .error (.validationError "address")
  else if r.district.length > 100 then .error (.validationError "district")
  else if r.regency.length > 100 then .error (.validationError "regency")
  else if r.province.length > 100 then .error (.validationError "province")
  else if (r.postal_code.getD "").length > 10 then .error (.validationError "postal_code")
  else if (r.phone.getD "").length > 20 then .error (.validationError "phone")
  else if (r.email.getD "").length > 255 then .error (.validationError "email")
  else if r.headmaster_name.length > 100 then .error (.validationError "headmaster_name")
  else .ok r

/-- Modelled from the spec (§6): the validation boundary for
`TransferCreate` requests. -/
def validateTransferCreate (r : TransferCreate) :
    Except ValidationError TransferCreate :=
  if r.transfer_reason.length > 1000 then .error (.validationError "transfer_reason")
  else if r.grade_from.length > 10 then .error (.validationError "grade_from")
  else if r.grade_to.length > 10 then .error (.validationError "grade_to")
  else if r.semester.length > 10 then .error (.validationError "semester")
  else if r.academic_year.length > 10 then .error (.validationError "academic_year")
  else if r.priority_level.length > 20 then .error (.validationError "priority_level")
  else if (r.notes.getD "").length > 2000 then .error (.validationError "notes")
  else .ok r

/-- Modelled from the spec (§6): the validation boundary for
`TransferUpdate` requests. -/
def validateTransferUpdate (r : TransferUpdate) :
    Except ValidationError TransferUpdate :=
  if (r.transfer_reason.getD "").length > 1000 then .error (.validationError "transfer_reason")
  else if (r.grade_from.getD "").length > 10 then .error (.validationError "grade_from")
  else if (r.grade_to.getD "").length > 10 then .error (.validationError "grade_to")
  else if (r.semester.getD "").length > 10 then .error (.validationError "semester")
  else if (r.academic_year.getD "").length > 10 then .error (.validationError "academic_year")
  else if (r.priority_level.getD "").length > 20 then .error (.validationError "priority_level")
  else if (r.notes.getD "").length > 2000 then .error (.validationError "notes")
  else if (r.approval_notes.getD "").length > 1000 then .error (.validationError "approval_notes")
  else .ok r

/-- Modelled from the spec (§6): the validation boundary for
`TransferApproval` requests. -/
def validateTransferApproval (r : TransferApproval) :
    Except ValidationError TransferApproval :=
  if r.approval_notes.length > 1000 then .error (.validationError "approval_notes")
  else .ok r

/-- Modelled from the spec (§6): the validation boundary for
`DocumentUpload` requests. -/
def validateDocumentUpload (r : DocumentUpload) :
    Except ValidationError DocumentUpload :=
  if r.file_name.length > 255 then .error (.validationError "file_name")
  else if r.mime_type.length > 100 then .error (.validationError "mime_type")
  else .ok r

/-- Modelled from the spec (§6): the validation boundary for
`NotificationCreate` requests. -/
def validateNotificationCreate (r : NotificationCreate) :
    Except ValidationError NotificationCreate :=
  if r.title.length > 200 then .error (.validationError "title")
  else if r.message.length > 1000 then .error (.validationError "message")
  else .ok r

/-- Modelled from the spec (§6): the validation boundary for
`TransferReportFilter` requests. -/
def validateTransferReportFilter (r : TransferReportFilter) :
    Except ValidationError TransferReportFilter :=
  if (r.grade.getD "").length > 10 then .error (.validationError "grade")
  else if (r.academic_year.getD "").length > 10 then .error (.validationError "academic_year")
  else .ok r

/-- Modelled from the spec (§6): the inbound transfer-creation pipeline:
the validation boundary runs first, so a request violating a declared
constraint is rejected before the persistence operation `createTransfer`
is ever reached. -/
def createTransferRequest (req : TransferCreate) (transferNumber : String)
    (tid creatorId : Int) (now : DateTime) :
    Except ValidationError (Except TransferError TransferState) :=
  match validateTransferCreate req with
  | .error e => .error e
  | .ok r => .ok (createTransfer r transferNumber tid creatorId now)

/-- The statuses counted as pending in the period aggregates: the
non-terminal, not-yet-decided lifecycle states. -/
def isPendingStatus : TransferStatus → Bool
| .draft => true
| .submitted => true
| .document_verification => true
| .pending_approval => true
| _ => false

/-- A transfer belongs to the (year, month) statistics period when its
transfer_date falls in that calendar month. -/
def inPeriod (y m : Int) (t : StudentTransfer) : Bool :=
  t.transfer_date.year == y && t.transfer_date.month == m

/-- Modelled from the spec (§4.3): recomputation of the
`TransferStatistics` row of a (year, month) period from the underlying
transfers, absent from the source tree.  Every total is recounted from
scratch over the transfers of the period. -/
def recomputeStatistics (y m : Int) (ts : List StudentTransfer)
    (st : TransferStatistics) (now : DateTime) : TransferStatistics :=
  let p := ts.filter (inPeriod y m)
  { st with
      year := y
      month := m
      total_incoming := ((p.filter (fun t => t.transfer_type == .incoming)).length : Int)
      total_outgoing := ((p.filter (fun t => t.transfer_type == .outgoing)).length : Int)
      total_approved := ((p.filter (fun t => t.status == .approved)).length : Int)
      total_rejected := ((p.filter (fun t => t.status == .rejected)).length : Int)
      total_pending := ((p.filter (fun t => isPendingStatus t.status)).length : Int)
      updated_at := now }

/-- The five period totals of a statistics row, bundled for comparison. -/
def statTotals (s : TransferStatistics) : Int × Int × Int × Int × Int :=
  (s.total_incoming, s.total_outgoing, s.total_approved, s.total_rejected,
   s.total_pending)

/-- Concrete creation request used by the witnesses: school 1 to
school 2. -/
def sampleReq : TransferCreate :=
  { student_id := 1
    transfer_type := .outgoing
    origin_school_id := 1
    destination_school_id := 2
    transfer_reason := "family relocation"
    grade_from := "4"
    grade_to := "4"
    semester := "1"
    academic_year := "2023/2024"
    priority_level := "normal"
    notes := none }

/-- Concrete creation request violating the §3 invariant: origin and
destination are both school 1. -/
def sampleReqBad : TransferCreate :=
  { sampleReq with destination_school_id := 1 }

/-- Concrete timestamp used by the witnesses. -/
def sampleNow : DateTime :=
  { year := 2024, month := 3, day := 1, hour := 9, minute := 0, second := 0 }

/-- The lifecycle state produced by creating a transfer from
`sampleReq`. -/
def sampleState : TransferState :=
  match createTransfer sampleReq "TRF-2024-0001" 7 100 sampleNow with
  | .ok s => s
  | .error _ => default

/-- The lifecycle invariant maintained by the modelled operations:
distinct schools, approval fields tied to the status, a status-history
walk from draft whose last entry matches the current status, and
correctly linked history rows starting from `none`. -/
def StateInv (s : TransferState) : Prop :=
  s.transfer.origin_school_id ≠ s.transfer.destination_school_id ∧
  (isApprovalStatus s.transfer.status = true →
    s.transfer.approved_by_id ≠ none ∧ s.transfer.approval_date ≠ none) ∧
  (isApprovalStatus s.transfer.status = false →
    s.transfer.approved_by_id = none ∧ s.transfer.approval_date = none) ∧
  isStatusWalk (s.history.map TransferStatusHistory.new_status) ∧
  (s.history.map TransferStatusHistory.new_status).getLast? =
    some s.transfer.status ∧
  linkedFrom none s.history

/-- Concrete stored user row used by the witnesses. -/
def sampleUserRow : User :=
  { id := some 1
    username := "budi"
    email := "budi@mail.example"
    password_hash := "a-long-enough-stored-hash"
    full_name := "Budi Santoso"
    role := .teacher
    is_active := true
    phone := none
    created_at := sampleNow
    updated_at := sampleNow
    last_login := none }

/-- A second user row reusing `sampleUserRow`'s username with a fresh
email. -/
def sampleUserDupName : User :=
  { sampleUserRow with id := some 2, email := "other@mail.example" }

/-- A second user row reusing `sampleUserRow`'s email with a fresh
username. -/
def sampleUserDupEmail : User :=
  { sampleUserRow with id := some 3, username := "siti" }

/-- Concrete stored school row used by the witnesses. -/
def sampleSchoolRow : School :=
  { id := some 1
    npsn := "10101010"
    name := "SDN 1 Contoh"
    address := "Jl. Merdeka 1"
    district := "Contoh"
    regency := "Kabupaten Contoh"
    province := "Jawa Tengah"
    postal_code := none
    phone := none
    email := none
    headmaster_name := "Ibu Sari"
    is_active := true
    created_at := sampleNow }

/-- Concrete stored student row used by the witnesses. -/
def sampleStudentRow : Student :=
  { id := some 1
    nisn := "0051234567"
    nis := none
    full_name := "Andi Wijaya"
    birth_place := "Semarang"
    birth_date := { year := 2015, month := 5, day := 2, hour := 0, minute := 0, second := 0 }
    gender := "Laki-laki"
    religion := "Islam"
    address := "Jl. Mawar 3"
    parent_name := "Pak Wijaya"
    parent_phone := none
    current_grade := "4"
    created_at := sampleNow
    updated_at := sampleNow }

/-- Concrete stored transfer row used by the witnesses. -/
def sampleTransferRow : StudentTransfer :=
  { id := some 7
    transfer_number := "TRF-2024-0001"
    student_id := 1
    transfer_type := .outgoing
    origin_school_id := 1
    destination_school_id := 2
    transfer_reason := "family relocation"
    status := .draft
    grade_from := "4"
    grade_to := "4"
    semester := "1"
    academic_year := "2023/2024"
    transfer_date := sampleNow
    created_by_id := 100
    approved_by_id := none
    approval_date := none
    approval_notes := none
    priority_level := "normal"
    notes := none
    created_at := sampleNow
    updated_at := sampleNow }

/-- Concrete stored settings row used by the witnesses. -/
def sampleSettingsRow : SystemSettings :=
  { id := some 1
    setting_key := "max_documents"
    setting_value := "10"
    description := none
    is_active := true
    created_at := sampleNow
    updated_at := sampleNow }

/-- Concrete database holding one row of each constrained table. -/
def sampleDb : Database :=
  { users := [sampleUserRow]
    schools := [sampleSchoolRow]
    students := [sampleStudentRow]
    student_transfers := [sampleTransferRow]
    system_settings := [sampleSettingsRow] }

/-- Concrete valid `UserCreate` request used by the witnesses. -/
def sampleUserReq : UserCreate :=
  { username := "budi"
    email := "budi@mail.example"
    password := "s3cretpass"
    full_name := "Budi Santoso"
    role := .teacher
    phone := none }

/-- `sampleUserReq` with an email that fails the address pattern. -/
def sampleUserReqBadEmail : UserCreate :=
  { sampleUserReq with email := "not-an-email" }

/-- `sampleUserReq` with a password shorter than eight characters. -/
def sampleUserReqShortPw : UserCreate :=
  { sampleUserReq with password := "abc" }

/-- A user row satisfying every declared `User` column constraint whose
stored `password_hash` is five characters long. -/
def sampleShortHashUser : User :=
  { sampleUserRow with password_hash := "abc12" }

/-- Concrete already verified document used by the witnesses. -/
def sampleDoc : TransferDocument :=
  { id := some 1
    transfer_id := 7
    document_type := .report_card
    file_name := "report.pdf"
    file_path := "/files/report.pdf"
    file_size := 1024
    mime_type := "application/pdf"
    is_verified := true
    verified_by_id := some 5
    verified_at := some sampleNow
    verification_notes := none
    uploaded_at := sampleNow }

/-- A school row reusing `sampleSchoolRow`'s npsn. -/
def sampleSchoolDup : School :=
  { sampleSchoolRow with id := some 9, name := "SDN 2 Contoh" }

/-- A student row reusing `sampleStudentRow`'s nisn. -/
def sampleStudentDup : Student :=
  { sampleStudentRow with id := some 9, full_name := "Andi W." }

/-- A transfer row reusing `sampleTransferRow`'s transfer_number. -/
def sampleTransferDup : StudentTransfer :=
  { sampleTransferRow with id := some 9 }

/-- A settings row reusing `sampleSettingsRow`'s setting_key. -/
def sampleSettingsDup : SystemSettings :=
  { sampleSettingsRow with id := some 9, setting_value := "20" }

/-- A user row with fresh unique keys. -/
def sampleUserRow2 : User :=
  { sampleUserRow with
      id := some 4
      username := "rina"
      email := "rina@mail.example" }

/-- A school row with a fresh npsn. -/
def sampleSchoolRow2 : School :=
  { sampleSchoolRow with id := some 2, npsn := "20202020" }

/-- A student row with a fresh nisn. -/
def sampleStudentRow2 : Student :=
  { sampleStudentRow with id := some 2, nisn := "0057654321" }

/-- A transfer row with a fresh transfer_number. -/
def sampleTransferRow2 : StudentTransfer :=
  { sampleTransferRow with id := some 8, transfer_number := "TRF-2024-0002" }

/-- A settings row with a fresh setting_key. -/
def sampleSettingsRow2 : SystemSettings :=
  { sampleSettingsRow with id := some 2, setting_key := "min_documents" }

/-- `sampleReq` with a grade_from exceeding the declared max length 10. -/
def sampleTransferReqBadGrade : TransferCreate :=
  { sampleReq with grade_from := "12345678901" }

theorem head?_append_left {α : Type} (l l2 : List α) (x : α)
    (h : l.head? = some x) : (l ++ l2).head? = some x := by
  cases l with
  | nil => simp at h
  | cons a as => simpa using h

theorem allowedTransition_cases (a b : TransferStatus)
    (h : allowedTransition a b = true) :
    (a = .draft ∧ b = .submitted) ∨
    (a = .submitted ∧ b = .document_verification) ∨
    (a = .document_verification ∧ b = .pending_approval) ∨
    (a = .pending_approval ∧ b = .approved) ∨
    (a = .pending_approval ∧ b = .rejected) ∨
    (a = .approved ∧ b = .completed) := by
  cases a <;> cases b <;> revert h <;> decide

theorem applyApproval_status (t : StudentTransfer) (tgt : TransferStatus)
    (a : Int) (an : Option String) (now : DateTime) :
    (applyApproval t tgt a an now).status = tgt := by
  unfold applyApproval
  split <;> rfl

theorem applyApproval_origin (t : StudentTransfer) (tgt : TransferStatus)
    (a : Int) (an : Option String) (now : DateTime) :
    (applyApproval t tgt a an now).origin_school_id = t.origin_school_id := by
  unfold applyApproval
  split <;> rfl

theorem applyApproval_destination (t : StudentTransfer) (tgt : TransferStatus)
    (a : Int) (an : Option String) (now : DateTime) :
    (applyApproval t tgt a an now).destination_school_id =
      t.destination_school_id := by
  unfold applyApproval
  split <;> rfl

theorem applyApproval_decision (t : StudentTransfer) (tgt : TransferStatus)
    (a : Int) (an : Option String) (now : DateTime)
    (h : tgt = .approved ∨ tgt = .rejected) :
    (applyApproval t tgt a an now).approved_by_id = some a ∧
    (applyApproval t tgt a an now).approval_date = some now := by
  unfold applyApproval
  rw [if_pos h]
  exact ⟨rfl, rfl⟩

theorem applyApproval_plain (t : StudentTransfer) (tgt : TransferStatus)
    (a : Int) (an : Option String) (now : DateTime)
    (h : ¬(tgt = .approved ∨ tgt = .rejected)) :
    (applyApproval t tgt a an now).approved_by_id = t.approved_by_id ∧
    (applyApproval t tgt a an now).approval_date = t.approval_date := by
  unfold applyApproval
  rw [if_neg h]
  exact ⟨rfl, rfl⟩

theorem linkedFrom_snoc (l : List TransferStatusHistory)
    (p : Option TransferStatus) (e : TransferStatusHistory)
    (h : linkedFrom p l)
    (he : ∀ x ∈ l.getLast?, e.previous_status = some x.new_status)
    (he0 : l = [] → e.previous_status = p) :
    linkedFrom p (l ++ [e]) := by
  induction l generalizing p with
  | nil => exact ⟨he0 rfl, trivial⟩
  | cons a as ih =>
      obtain ⟨ha, hrest⟩ := h
      refine ⟨ha, ih _ hrest ?_ ?_⟩
      · intro x hx
        apply he
        cases as with
        | nil => simp at hx
        | cons b bs => simpa [List.getLast?_cons_cons] using hx
      · intro hnil
        subst hnil
        apply he
        simp
  
theorem linkedFrom_not_none (l : List TransferStatusHistory)
    (x : TransferStatus) (h : linkedFrom (some x) l) :
    ∀ e ∈ l, e.previous_status ≠ none := by
  induction l generalizing x with
  | nil => intro e he; cases he
  | cons a as ih =>
      obtain ⟨ha, hrest⟩ := h
      intro e he
      rcases List.mem_cons.mp he with he | he
      · subst he
        rw [ha]
        simp
      · exact ih _ hrest e he
theorem reachable_StateInv (s : TransferState) (h : Reachable s) :
    StateInv s := by
  induction h with
  | created req tn tid creatorId now s hc =>
      unfold createTransfer at hc
      split at hc
      · exact absurd hc (by simp)
      · rename_i h0
        simp only [Except.ok.injEq] at hc
        subst hc
        refine ⟨h0, ?_, ?_, ⟨rfl, List.chain'_singleton _⟩, rfl, rfl, trivial⟩
        · intro hx
          exact absurd (show isApprovalStatus TransferStatus.draft = true from hx)
            (by decide)
        · intro _
          exact ⟨rfl, rfl⟩
  | stepped s tgt actor an r hn now s2 hr hstep ih =>
      unfold applyTransition at hstep
      split at hstep
      · rename_i hallow
        simp only [Except.ok.injEq] at hstep
        subst hstep
        obtain ⟨hne, hpop, hnopop, ⟨hhead, hchain⟩, hlast, hlink⟩ := ih
        have hstat := applyApproval_status s.transfer tgt actor an now
        have horig := applyApproval_origin s.transfer tgt actor an now
        have hdest := applyApproval_destination s.transfer tgt actor an now
        have hmap :
            ((s.history ++ [mkHistoryEntry s.transfer tgt actor r hn now]).map
              TransferStatusHistory.new_status) =
            s.history.map TransferStatusHistory.new_status ++ [tgt] := by
          simp [List.map_append, mkHistoryEntry]
        have hwalkNew :
            isStatusWalk
              ((s.history ++ [mkHistoryEntry s.transfer tgt actor r hn now]).map
                TransferStatusHistory.new_status) := by
          rw [hmap]
          constructor
          · exact head?_append_left _ _ _ hhead
          · refine List.chain'_append.mpr ⟨hchain, List.chain'_singleton _, ?_⟩
            intro x hx y hy
            rw [hlast] at hx
            simp only [Option.mem_def, Option.some.injEq] at hx
            simp only [List.head?_cons, Option.mem_def, Option.some.injEq] at hy
            subst hx
            subst hy
            exact hallow
        have hlastNew :
            ((s.history ++ [mkHistoryEntry s.transfer tgt actor r hn now]).map
              TransferStatusHistory.new_status).getLast? = some tgt := by
          rw [hmap]
          exact List.getLast?_concat _
        have hlinkNew :
            linkedFrom none
              (s.history ++ [mkHistoryEntry s.transfer tgt actor r hn now]) := by
          refine linkedFrom_snoc _ _ _ hlink ?_ ?_
          · intro x hx
            rw [List.getLast?_map] at hlast
            rw [Option.mem_def] at hx
            rw [hx] at hlast
            simp only [Option.map_some', Option.some.injEq] at hlast
            show some s.transfer.status = some x.new_status
            rw [hlast]
          · intro hnil
            rw [hnil] at hhead
            simp at hhead
        have hfields :
            (isApprovalStatus (applyApproval s.transfer tgt actor an now).status = true →
              (applyApproval s.transfer tgt actor an now).approved_by_id ≠ none ∧
              (applyApproval s.transfer tgt actor an now).approval_date ≠ none) ∧
            (isApprovalStatus (applyApproval s.transfer tgt actor an now).status = false →
              (applyApproval s.transfer tgt actor an now).approved_by_id = none ∧
              (applyApproval s.transfer tgt actor an now).approval_date = none) := by
          rcases allowedTransition_cases _ _ hallow with
            ⟨ha, hb⟩ | ⟨ha, hb⟩ | ⟨ha, hb⟩ | ⟨ha, hb⟩ | ⟨ha, hb⟩ | ⟨ha, hb⟩ <;>
            subst hb <;> rw [hstat]
          · have hp := applyApproval_plain s.transfer .submitted actor an now (by decide)
            have hz := hnopop (by rw [ha]; decide)
            exact ⟨fun hx => absurd hx (by decide),
              fun _ => ⟨by rw [hp.1, hz.1], by rw [hp.2, hz.2]⟩⟩
          · have hp := applyApproval_plain s.transfer .document_verification actor an now (by decide)
            have hz := hnopop (by rw [ha]; decide)
            exact ⟨fun hx => absurd hx (by decide),
              fun _ => ⟨by rw [hp.1, hz.1], by rw [hp.2, hz.2]⟩⟩
          · have hp := applyApproval_plain s.transfer .pending_approval actor an now (by decide)
            have hz := hnopop (by rw [ha]; decide)
            exact ⟨fun hx => absurd hx (by decide),
              fun _ => ⟨by rw [hp.1, hz.1], by rw [hp.2, hz.2]⟩⟩
          · have hp := applyApproval_decision s.transfer .approved actor an now (Or.inl rfl)
            exact ⟨fun _ => ⟨by rw [hp.1]; simp, by rw [hp.2]; simp⟩,
              fun hx => absurd hx (by decide)⟩
          · have hp := applyApproval_decision s.transfer .rejected actor an now (Or.inr rfl)
            exact ⟨fun _ => ⟨by rw [hp.1]; simp, by rw [hp.2]; simp⟩,
              fun hx => absurd hx (by decide)⟩
          · have hp := applyApproval_plain s.transfer .completed actor an now (by decide)
            have hz := hpop (by rw [ha]; decide)
            exact ⟨fun _ => ⟨by rw [hp.1]; exact hz.1, by rw [hp.2]; exact hz.2⟩,
              fun hx => absurd hx (by decide)⟩
        refine ⟨?_, hfields.1, hfields.2, hwalkNew, ?_, hlinkNew⟩
        · show (applyApproval s.transfer tgt actor an now).origin_school_id ≠
            (applyApproval s.transfer tgt actor an now).destination_school_id
          rw [horig, hdest]
          exact hne
        · rw [hlastNew, hstat]
      · exact absurd hstep (by simp)

theorem sample_createTransfer_ok :
    createTransfer sampleReq "TRF-2024-0001" 7 100 sampleNow =
      .ok sampleState := rfl

theorem reachable_sampleState : Reachable sampleState :=
  Reachable.created sampleReq "TRF-2024-0001" 7 100 sampleNow sampleState
    sample_createTransfer_ok

/-- C1: every reachable transfer state satisfies origin_school_id ≠
destination_school_id, and creating a transfer whose origin equals its
destination fails with ConsistencyViolation, producing no record. -/
theorem claim_C1_origin_destination (s : TransferState) (h : Reachable s)
    (req : TransferCreate) (tn : String) (tid creatorId : Int)
    (now : DateTime)
    (hbad : req.origin_school_id = req.destination_school_id) :
    s.transfer.origin_school_id ≠ s.transfer.destination_school_id ∧
    createTransfer req tn tid creatorId now =
      .error TransferError.consistencyViolation := by
  refine ⟨(reachable_StateInv s h).1, ?_⟩
  unfold createTransfer
  rw [if_pos hbad]

theorem claim_C1_origin_destination_witness :
    sampleState.transfer.origin_school_id ≠
      sampleState.transfer.destination_school_id ∧
    createTransfer sampleReqBad "TRF-2024-0002" 8 100 sampleNow =
      .error TransferError.consistencyViolation :=
  claim_C1_origin_destination sampleState reachable_sampleState
    sampleReqBad "TRF-2024-0002" 8 100 sampleNow rfl

/-- C2: in every reachable transfer state the approval fields
approved_by_id and approval_date are populated exactly when the status is
approved, rejected or completed; in the remaining statuses both fields
are None. -/
theorem claim_C2_approval_fields (s : TransferState) (h : Reachable s) :
    ((s.transfer.approved_by_id ≠ none ∧ s.transfer.approval_date ≠ none) ↔
      isApprovalStatus s.transfer.status = true) ∧
    (isApprovalStatus s.transfer.status = false →
      s.transfer.approved_by_id = none ∧ s.transfer.approval_date = none) := by
  obtain ⟨_, hpop, hnopop, _, _, _⟩ := reachable_StateInv s h
  refine ⟨⟨?_, hpop⟩, hnopop⟩
  intro hx
  cases hb : isApprovalStatus s.transfer.status with
  | true => rfl
  | false => exact absurd (hnopop hb).1 hx.1

theorem claim_C2_approval_fields_witness :
    ((sampleState.transfer.approved_by_id ≠ none ∧
        sampleState.transfer.approval_date ≠ none) ↔
      isApprovalStatus sampleState.transfer.status = true) ∧
    (isApprovalStatus sampleState.transfer.status = false →
      sampleState.transfer.approved_by_id = none ∧
      sampleState.transfer.approval_date = none) :=
  claim_C2_approval_fields sampleState reachable_sampleState

/-- C3: in every reachable transfer state the sequence of the status
history's new_status values, played from draft, is a walk of the §4.1
transition graph with no skipped states, and a transition outside the
graph is rejected with InvalidTransition. -/
theorem claim_C3_history_walk (s : TransferState) (h : Reachable s)
    (s2 : TransferState) (target : TransferStatus) (actorId : Int)
    (anotes reason hnotes : Option String) (now : DateTime)
    (hout : allowedTransition s2.transfer.status target = false) :
    isStatusWalk (s.history.map TransferStatusHistory.new_status) ∧
    applyTransition s2 target actorId anotes reason hnotes now =
      .error TransferError.invalidTransition := by
  refine ⟨(reachable_StateInv s h).2.2.2.1, ?_⟩
  unfold applyTransition
  rw [hout]
  simp

theorem claim_C3_history_walk_witness :
    isStatusWalk (sampleState.history.map TransferStatusHistory.new_status) ∧
    applyTransition sampleState .approved 5 none none none sampleNow =
      .error TransferError.invalidTransition :=
  claim_C3_history_walk sampleState reachable_sampleState sampleState
    .approved 5 none none none sampleNow rfl

/-- C4: a successfully created transfer has status draft, and every
value of the TransferStatus enumeration is one of exactly the seven
states draft, submitted, document_verification, pending_approval,
approved, rejected, completed. -/
theorem claim_C4_initial_status (req : TransferCreate) (tn : String)
    (tid creatorId : Int) (now : DateTime) (s : TransferState)
    (hok : createTransfer req tn tid creatorId now = .ok s) :
    s.transfer.status = TransferStatus.draft ∧
    ∀ st : TransferStatus,
      st = .draft ∨ st = .submitted ∨ st = .document_verification ∨
      st = .pending_approval ∨ st = .approved ∨ st = .rejected ∨
      st = .completed := by
  constructor
  · unfold createTransfer at hok
    split at hok
    · exact absurd hok (by simp)
    · simp only [Except.ok.injEq] at hok
      subst hok
      rfl
  · intro st
    cases st <;> simp

theorem claim_C4_initial_status_witness :
    sampleState.transfer.status = TransferStatus.draft ∧
    ∀ st : TransferStatus,
      st = .draft ∨ st = .submitted ∨ st = .document_verification ∨
      st = .pending_approval ∨ st = .approved ∨ st = .rejected ∨
      st = .completed :=
  claim_C4_initial_status sampleReq "TRF-2024-0001" 7 100 sampleNow
    sampleState sample_createTransfer_ok

/-- C10: in every reachable transfer state the history is nonempty, its
first row has previous_status = none (the very first entry has no prior
status), and every later row carries a populated previous_status; the
required columns new_status and changed_by_id always hold a value by the
shape of TransferStatusHistory. -/
theorem claim_C10_previous_status_optional (s : TransferState)
    (h : Reachable s) :
    ∃ e rest, s.history = e :: rest ∧ e.previous_status = none ∧
      ∀ e2 ∈ rest, e2.previous_status ≠ none := by
  obtain ⟨_, _, _, ⟨hhead, _⟩, _, hlink⟩ := reachable_StateInv s h
  cases hh : s.history with
  | nil =>
      rw [hh] at hhead
      simp at hhead
  | cons e rest =>
      rw [hh] at hlink
      obtain ⟨hp, hrest⟩ := hlink
      exact ⟨e, rest, rfl, hp, linkedFrom_not_none rest _ hrest⟩

theorem claim_C10_previous_status_optional_witness :
    ∃ e rest, sampleState.history = e :: rest ∧ e.previous_status = none ∧
      ∀ e2 ∈ rest, e2.previous_status ≠ none :=
  claim_C10_previous_status_optional sampleState reachable_sampleState

/-- C7: re-verifying an already verified document leaves is_verified
true and changes only the verifier, timestamp and notes fields; every
other field of the document is unchanged. -/
theorem claim_C7_verify_idempotent (d : TransferDocument)
    (verifierId : Int) (now : DateTime) (vnotes : Option String)
    (h : d.is_verified = true) :
    (verifyDocument d verifierId now vnotes).is_verified = true ∧
    (verifyDocument d verifierId now vnotes).verified_by_id = some verifierId ∧
    (verifyDocument d verifierId now vnotes).verified_at = some now ∧
    (verifyDocument d verifierId now vnotes).verification_notes = vnotes ∧
    (verifyDocument d verifierId now vnotes).id = d.id ∧
    (verifyDocument d verifierId now vnotes).transfer_id = d.transfer_id ∧
    (verifyDocument d verifierId now vnotes).document_type = d.document_type ∧
    (verifyDocument d verifierId now vnotes).file_name = d.file_name ∧
    (verifyDocument d verifierId now vnotes).file_path = d.file_path ∧
    (verifyDocument d verifierId now vnotes).file_size = d.file_size ∧
    (verifyDocument d verifierId now vnotes).mime_type = d.mime_type ∧
    (verifyDocument d verifierId now vnotes).uploaded_at = d.uploaded_at := by
  unfold verifyDocument
  exact ⟨rfl, rfl, rfl, rfl, rfl, rfl, rfl, rfl, rfl, rfl, rfl, rfl⟩

theorem claim_C7_verify_idempotent_witness :
    (verifyDocument sampleDoc 6 sampleNow (some "ok")).is_verified = true ∧
    (verifyDocument sampleDoc 6 sampleNow (some "ok")).verified_by_id = some 6 ∧
    (verifyDocument sampleDoc 6 sampleNow (some "ok")).verified_at = some sampleNow ∧
    (verifyDocument sampleDoc 6 sampleNow (some "ok")).verification_notes = some "ok" ∧
    (verifyDocument sampleDoc 6 sampleNow (some "ok")).id = sampleDoc.id ∧
    (verifyDocument sampleDoc 6 sampleNow (some "ok")).transfer_id = sampleDoc.transfer_id ∧
    (verifyDocument sampleDoc 6 sampleNow (some "ok")).document_type = sampleDoc.document_type ∧
    (verifyDocument sampleDoc 6 sampleNow (some "ok")).file_name = sampleDoc.file_name ∧
    (verifyDocument sampleDoc 6 sampleNow (some "ok")).file_path = sampleDoc.file_path ∧
    (verifyDocument sampleDoc 6 sampleNow (some "ok")).file_size = sampleDoc.file_size ∧
    (verifyDocument sampleDoc 6 sampleNow (some "ok")).mime_type = sampleDoc.mime_type ∧
    (verifyDocument sampleDoc 6 sampleNow (some "ok")).uploaded_at = sampleDoc.uploaded_at :=
  claim_C7_verify_idempotent sampleDoc 6 sampleNow (some "ok") rfl

/-- C8: recomputing the TransferStatistics aggregate of a (year, month)
period twice over the same underlying transfers yields identical totals
(total_incoming, total_outgoing, total_approved, total_rejected,
total_pending) both times. -/
theorem claim_C8_recompute_idempotent (y m : Int)
    (ts : List StudentTransfer) (st : TransferStatistics)
    (n1 n2 : DateTime) :
    statTotals
      (recomputeStatistics y m ts (recomputeStatistics y m ts st n1) n2) =
    statTotals (recomputeStatistics y m ts st n1) := rfl

theorem nodup_map_snoc {α : Type} (f : α → String) (l : List α) (x : α)
    (hn : (l.map f).Nodup)
    (h : l.any (fun v => f v == f x) = false) :
    ((l ++ [x]).map f).Nodup := by
  rw [List.map_append, List.nodup_append]
  refine ⟨hn, List.nodup_singleton _, fun a ha hb => ?_⟩
  simp only [List.map_cons, List.map_nil, List.mem_singleton] at hb
  subst hb
  rcases List.mem_map.mp ha with ⟨v, hv, hfv⟩
  rw [List.any_eq_false] at h
  exact absurd (by simp [hfv]) (h v hv)

theorem insertUser_dup_username (db : Database) (u : User)
    (h : ∃ v ∈ db.users, v.username = u.username) :
    insertUser db u = (db, some (.uniquenessConflict "username")) := by
  unfold insertUser
  have hb : db.users.any (fun v => v.username == u.username) = true := by
    rcases h with ⟨v, hv, he⟩
    exact List.any_eq_true.mpr ⟨v, hv, by simp [he]⟩
  rw [if_pos hb]

theorem insertUser_dup_email (db : Database) (u : User)
    (hname : db.users.any (fun v => v.username == u.username) = false)
    (h : ∃ v ∈ db.users, v.email = u.email) :
    insertUser db u = (db, some (.uniquenessConflict "email")) := by
  unfold insertUser
  have hb : db.users.any (fun v => v.email == u.email) = true := by
    rcases h with ⟨v, hv, he⟩
    exact List.any_eq_true.mpr ⟨v, hv, by simp [he]⟩
  rw [if_neg (by simp [hname]), if_pos hb]

theorem insertSchool_dup (db : Database) (s : School)
    (h : ∃ v ∈ db.schools, v.npsn = s.npsn) :
    insertSchool db s = (db, some (.uniquenessConflict "npsn")) := by
  unfold insertSchool
  have hb : db.schools.any (fun v => v.npsn == s.npsn) = true := by
    rcases h with ⟨v, hv, he⟩
    exact List.any_eq_true.mpr ⟨v, hv, by simp [he]⟩
  rw [if_pos hb]

theorem insertStudent_dup (db : Database) (s : Student)
    (h : ∃ v ∈ db.students, v.nisn = s.nisn) :
    insertStudent db s = (db, some (.uniquenessConflict "nisn")) := by
  unfold insertStudent
  have hb : db.students.any (fun v => v.nisn == s.nisn) = true := by
    rcases h with ⟨v, hv, he⟩
    exact List.any_eq_true.mpr ⟨v, hv, by simp [he]⟩
  rw [if_pos hb]

theorem insertStudentTransfer_dup (db : Database) (t : StudentTransfer)
    (h : ∃ v ∈ db.student_transfers, v.transfer_number = t.transfer_number) :
    insertStudentTransfer db t =
      (db, some (.uniquenessConflict "transfer_number")) := by
  unfold insertStudentTransfer
  have hb :
      db.student_transfers.any
        (fun v => v.transfer_number == t.transfer_number) = true := by
    rcases h with ⟨v, hv, he⟩
    exact List.any_eq_true.mpr ⟨v, hv, by simp [he]⟩
  rw [if_pos hb]

theorem insertSystemSettings_dup (db : Database) (s : SystemSettings)
    (h : ∃ v ∈ db.system_settings, v.setting_key = s.setting_key) :
    insertSystemSettings db s =
      (db, some (.uniquenessConflict "setting_key")) := by
  unfold insertSystemSettings
  have hb :
      db.system_settings.any
        (fun v => v.setting_key == s.setting_key) = true := by
    rcases h with ⟨v, hv, he⟩
    exact List.any_eq_true.mpr ⟨v, hv, by simp [he]⟩
  rw [if_pos hb]

theorem insertUser_preserves (db : Database) (u : User)
    (hk : dbKeysUnique db) : dbKeysUnique (insertUser db u).1 := by
  unfold insertUser
  split
  · exact hk
  · split
    · exact hk
    · rename_i h1 h2
      rw [Bool.not_eq_true] at h1 h2
      exact ⟨nodup_map_snoc User.username db.users u hk.1 h1,
        nodup_map_snoc User.email db.users u hk.2.1 h2,
        hk.2.2.1, hk.2.2.2.1, hk.2.2.2.2.1, hk.2.2.2.2.2⟩

theorem insertSchool_preserves (db : Database) (s : School)
    (hk : dbKeysUnique db) : dbKeysUnique (insertSchool db s).1 := by
  unfold insertSchool
  split
  · exact hk
  · rename_i h1
    rw [Bool.not_eq_true] at h1
    exact ⟨hk.1, hk.2.1, nodup_map_snoc School.npsn db.schools s hk.2.2.1 h1,
      hk.2.2.2.1, hk.2.2.2.2.1, hk.2.2.2.2.2⟩

theorem insertStudent_preserves (db : Database) (s : Student)
    (hk : dbKeysUnique db) : dbKeysUnique (insertStudent db s).1 := by
  unfold insertStudent
  split
  · exact hk
  · rename_i h1
    rw [Bool.not_eq_true] at h1
    exact ⟨hk.1, hk.2.1, hk.2.2.1,
      nodup_map_snoc Student.nisn db.students s hk.2.2.2.1 h1,
      hk.2.2.2.2.1, hk.2.2.2.2.2⟩

theorem insertStudentTransfer_preserves (db : Database)
    (t : StudentTransfer) (hk : dbKeysUnique db) :
    dbKeysUnique (insertStudentTransfer db t).1 := by
  unfold insertStudentTransfer
  split
  · exact hk
  · rename_i h1
    rw [Bool.not_eq_true] at h1
    exact ⟨hk.1, hk.2.1, hk.2.2.1, hk.2.2.2.1,
      nodup_map_snoc StudentTransfer.transfer_number db.student_transfers t
        hk.2.2.2.2.1 h1,
      hk.2.2.2.2.2⟩

theorem insertSystemSettings_preserves (db : Database) (s : SystemSettings)
    (hk : dbKeysUnique db) : dbKeysUnique (insertSystemSettings db s).1 := by
  unfold insertSystemSettings
  split
  · exact hk
  · rename_i h1
    rw [Bool.not_eq_true] at h1
    exact ⟨hk.1, hk.2.1, hk.2.2.1, hk.2.2.2.1, hk.2.2.2.2.1,
      nodup_map_snoc SystemSettings.setting_key db.system_settings s
        hk.2.2.2.2.2 h1⟩

/-- C5: a duplicate value in any of the unique columns username, email,
npsn, nisn, transfer_number or setting_key makes the insert fail with
UniquenessConflict naming the offending field and leaves the stored
state unchanged, and every insert keeps the unique columns pairwise
distinct across their tables. -/
theorem claim_C5_unique_columns (db : Database) (u : User) (sc : School)
    (st : Student) (tr : StudentTransfer) (sy : SystemSettings) :
    ((∃ v ∈ db.users, v.username = u.username) →
      insertUser db u =
        (db, some (StorageError.uniquenessConflict "username"))) ∧
    ((db.users.any (fun v => v.username == u.username) = false) →
      (∃ v ∈ db.users, v.email = u.email) →
      insertUser db u =
        (db, some (StorageError.uniquenessConflict "email"))) ∧
    ((∃ v ∈ db.schools, v.npsn = sc.npsn) →
      insertSchool db sc =
        (db, some (StorageError.uniquenessConflict "npsn"))) ∧
    ((∃ v ∈ db.students, v.nisn = st.nisn) →
      insertStudent db st =
        (db, some (StorageError.uniquenessConflict "nisn"))) ∧
    ((∃ v ∈ db.student_transfers, v.transfer_number = tr.transfer_number) →
      insertStudentTransfer db tr =
        (db, some (StorageError.uniquenessConflict "transfer_number"))) ∧
    ((∃ v ∈ db.system_settings, v.setting_key = sy.setting_key) →
      insertSystemSettings db sy =
        (db, some (StorageError.uniquenessConflict "setting_key"))) ∧
    (dbKeysUnique db →
      dbKeysUnique (insertUser db u).1 ∧
      dbKeysUnique (insertSchool db sc).1 ∧
      dbKeysUnique (insertStudent db st).1 ∧
      dbKeysUnique (insertStudentTransfer db tr).1 ∧
      dbKeysUnique (insertSystemSettings db sy).1) :=
  ⟨insertUser_dup_username db u,
   insertUser_dup_email db u,
   insertSchool_dup db sc,
   insertStudent_dup db st,
   insertStudentTransfer_dup db tr,
   insertSystemSettings_dup db sy,
   fun hk =>
     ⟨insertUser_preserves db u hk, insertSchool_preserves db sc hk,
      insertStudent_preserves db st hk,
      insertStudentTransfer_preserves db tr hk,
      insertSystemSettings_preserves db sy hk⟩⟩

theorem claim_C5_unique_columns_witness :
    insertUser sampleDb sampleUserDupName =
      (sampleDb, some (StorageError.uniquenessConflict "username")) ∧
    insertUser sampleDb sampleUserDupEmail =
      (sampleDb, some (StorageError.uniquenessConflict "email")) ∧
    insertSchool sampleDb sampleSchoolDup =
      (sampleDb, some (StorageError.uniquenessConflict "npsn")) ∧
    insertStudent sampleDb sampleStudentDup =
      (sampleDb, some (StorageError.uniquenessConflict "nisn")) ∧
    insertStudentTransfer sampleDb sampleTransferDup =
      (sampleDb, some (StorageError.uniquenessConflict "transfer_number")) ∧
    insertSystemSettings sampleDb sampleSettingsDup =
      (sampleDb, some (StorageError.uniquenessConflict "setting_key")) ∧
    dbKeysUnique (insertUser sampleDb sampleUserRow2).1 ∧
    dbKeysUnique (insertSchool sampleDb sampleSchoolRow2).1 ∧
    dbKeysUnique (insertStudent sampleDb sampleStudentRow2).1 ∧
    dbKeysUnique (insertStudentTransfer sampleDb sampleTransferRow2).1 ∧
    dbKeysUnique (insertSystemSettings sampleDb sampleSettingsRow2).1 :=
  ⟨(claim_C5_unique_columns sampleDb sampleUserDupName sampleSchoolDup
      sampleStudentDup sampleTransferDup sampleSettingsDup).1
      ⟨sampleUserRow, List.mem_singleton_self _, rfl⟩,
   (claim_C5_unique_columns sampleDb sampleUserDupEmail sampleSchoolDup
      sampleStudentDup sampleTransferDup sampleSettingsDup).2.1
      (by decide) ⟨sampleUserRow, List.mem_singleton_self _, rfl⟩,
   (claim_C5_unique_columns sampleDb sampleUserDupName sampleSchoolDup
      sampleStudentDup sampleTransferDup sampleSettingsDup).2.2.1
      ⟨sampleSchoolRow, List.mem_singleton_self _, rfl⟩,
   (claim_C5_unique_columns sampleDb sampleUserDupName sampleSchoolDup
      sampleStudentDup sampleTransferDup sampleSettingsDup).2.2.2.1
      ⟨sampleStudentRow, List.mem_singleton_self _, rfl⟩,
   (claim_C5_unique_columns sampleDb sampleUserDupName sampleSchoolDup
      sampleStudentDup sampleTransferDup sampleSettingsDup).2.2.2.2.1
      ⟨sampleTransferRow, List.mem_singleton_self _, rfl⟩,
   (claim_C5_unique_columns sampleDb sampleUserDupName sampleSchoolDup
      sampleStudentDup sampleTransferDup sampleSettingsDup).2.2.2.2.2.1
      ⟨sampleSettingsRow, List.mem_singleton_self _, rfl⟩,
   (claim_C5_unique_columns sampleDb sampleUserRow2 sampleSchoolRow2
      sampleStudentRow2 sampleTransferRow2 sampleSettingsRow2).2.2.2.2.2.2
      (by simp [dbKeysUnique, sampleDb])⟩

theorem validateUserCreate_ok_inv (r r2 : UserCreate)
    (h : validateUserCreate r = .ok r2) :
    r2 = r ∧ r.username.length ≤ 50 ∧ r.email.length ≤ 255 ∧
    emailMatch r.email = true ∧ 8 ≤ r.password.length ∧
    r.password.length ≤ 100 ∧ r.full_name.length ≤ 100 ∧
    (r.phone.getD "").length ≤ 20 := by
  unfold validateUserCreate at h
  split_ifs at h with h1 h2 h3 h4 h5 h6 h7
  simp only [Except.ok.injEq] at h
  simp at h3
  exact ⟨h.symm, by omega, by omega, h3, by omega, by omega, by omega,
    by omega⟩

theorem validation_reject {α : Type} (v : Except ValidationError α)
    (h : ∀ r2 : α, v ≠ .ok r2) :
    ∃ f, v = .error (.validationError f) := by
  cases v with
  | error e =>
      cases e with
      | validationError f => exact ⟨f, rfl⟩
  | ok r2 => exact absurd rfl (h r2)

theorem validateUserCreate_ok_valid (r r2 : UserCreate)
    (h : validateUserCreate r = .ok r2) : r2 = r ∧ userCreateValid r := by
  have hi := validateUserCreate_ok_inv r r2 h
  refine ⟨hi.1, ?_⟩
  unfold userCreateValid
  exact ⟨hi.2.1, hi.2.2.1, hi.2.2.2.1, hi.2.2.2.2.1, hi.2.2.2.2.2.1,
    hi.2.2.2.2.2.2.1, hi.2.2.2.2.2.2.2⟩

theorem validateUserUpdate_ok_inv (r r2 : UserUpdate)
    (h : validateUserUpdate r = .ok r2) : r2 = r ∧ userUpdateValid r := by
  unfold validateUserUpdate at h
  split_ifs at h with h1 h2 h3 h4 h5
  simp only [Except.ok.injEq] at h
  refine ⟨h.symm, ?_⟩
  unfold userUpdateValid
  simp at h3
  exact ⟨by omega, by omega, h3, by omega, by omega⟩

theorem validateUserLogin_ok_inv (r r2 : UserLogin)
    (h : validateUserLogin r = .ok r2) : r2 = r ∧ userLoginValid r := by
  unfold validateUserLogin at h
  split_ifs at h with h1 h2
  simp only [Except.ok.injEq] at h
  refine ⟨h.symm, ?_⟩
  unfold userLoginValid
  omega

set_option maxHeartbeats 1000000 in
theorem validateStudentCreate_ok_inv (r r2 : StudentCreate)
    (h : validateStudentCreate r = .ok r2) :
    r2 = r ∧ studentCreateValid r := by
  unfold validateStudentCreate at h
  split_ifs at h with h1 h2 h3 h4 h5 h6 h7 h8 h9 h10
  simp only [Except.ok.injEq] at h
  refine ⟨h.symm, ?_⟩
  unfold studentCreateValid
  omega

theorem validateStudentUpdate_ok_inv (r r2 : StudentUpdate)
    (h : validateStudentUpdate r = .ok r2) :
    r2 = r ∧ studentUpdateValid r := by
  unfold validateStudentUpdate at h
  split_ifs at h with h1 h2 h3 h4 h5 h6 h7 h8 h9
  simp only [Except.ok.injEq] at h
  refine ⟨h.symm, ?_⟩
  unfold studentUpdateValid
  omega

set_option maxHeartbeats 1000000 in
theorem validateSchoolCreate_ok_inv (r r2 : SchoolCreate)
    (h : validateSchoolCreate r = .ok r2) :
    r2 = r ∧ schoolCreateValid r := by
  unfold validateSchoolCreate at h
  split_ifs at h with h1 h2 h3 h4 h5 h6 h7 h8 h9 h10
  simp only [Except.ok.injEq] at h
  refine ⟨h.symm, ?_⟩
  unfold schoolCreateValid
  omega

theorem validateTransferCreate_ok_inv (r r2 : TransferCreate)
    (h : validateTransferCreate r = .ok r2) :
    r2 = r ∧ transferCreateValid r := by
  unfold validateTransferCreate at h
  split_ifs at h with h1 h2 h3 h4 h5 h6 h7
  simp only [Except.ok.injEq] at h
  refine ⟨h.symm, ?_⟩
  unfold transferCreateValid
  omega

theorem validateTransferUpdate_ok_inv (r r2 : TransferUpdate)
    (h : validateTransferUpdate r = .ok r2) :
    r2 = r ∧ transferUpdateValid r := by
  unfold validateTransferUpdate at h
  split_ifs at h with h1 h2 h3 h4 h5 h6 h7 h8
  simp only [Except.ok.injEq] at h
  refine ⟨h.symm, ?_⟩
  unfold transferUpdateValid
  omega

theorem validateTransferApproval_ok_inv (r r2 : TransferApproval)
    (h : validateTransferApproval r = .ok r2) :
    r2 = r ∧ transferApprovalValid r := by
  unfold validateTransferApproval at h
  split_ifs at h with h1
  simp only [Except.ok.injEq] at h
  refine ⟨h.symm, ?_⟩
  unfold transferApprovalValid
  omega

theorem validateDocumentUpload_ok_inv (r r2 : DocumentUpload)
    (h : validateDocumentUpload r = .ok r2) :
    r2 = r ∧ documentUploadValid r := by
  unfold validateDocumentUpload at h
  split_ifs at h with h1 h2
  simp only [Except.ok.injEq] at h
  refine ⟨h.symm, ?_⟩
  unfold documentUploadValid
  omega

theorem validateNotificationCreate_ok_inv (r r2 : NotificationCreate)
    (h : validateNotificationCreate r = .ok r2) :
    r2 = r ∧ notificationCreateValid r := by
  unfold validateNotificationCreate at h
  split_ifs at h with h1 h2
  simp only [Except.ok.injEq] at h
  refine ⟨h.symm, ?_⟩
  unfold notificationCreateValid
  omega

theorem validateTransferReportFilter_ok_inv (r r2 : TransferReportFilter)
    (h : validateTransferReportFilter r = .ok r2) :
    r2 = r ∧ transferReportFilterValid r := by
  unfold validateTransferReportFilter at h
  split_ifs at h with h1 h2
  simp only [Except.ok.injEq] at h
  refine ⟨h.symm, ?_⟩
  unfold transferReportFilterValid
  omega

/-- C6: for every inbound request shape of models.py (UserCreate,
UserUpdate, UserLogin, StudentCreate, StudentUpdate, SchoolCreate,
TransferCreate, TransferUpdate, TransferApproval, DocumentUpload,
NotificationCreate, TransferReportFilter), an input violating a declared
max-length or pattern constraint is rejected at the validation boundary
with the offending field named, and every accepted input satisfies all
the declared constraints; required fields are enforced by the shapes
themselves (non-Optional fields), and DashboardStats, the outbound
summary shape, declares no such constraint.  A TransferCreate that
violates a constraint is rejected before the persistence operation
createTransfer is reached, and in particular any email accepted for a
user matches the standard address pattern of models.py line 52. -/
theorem claim_C6_validation_boundary (uc : UserCreate) (uu : UserUpdate)
    (ul : UserLogin) (sc : StudentCreate) (su : StudentUpdate)
    (sch : SchoolCreate) (tc : TransferCreate) (tu : TransferUpdate)
    (ta : TransferApproval) (du : DocumentUpload)
    (nc : NotificationCreate) (rf : TransferReportFilter) (tn : String)
    (tid creatorId : Int) (now : DateTime) :
    (¬ userCreateValid uc →
      ∃ f, validateUserCreate uc = .error (ValidationError.validationError f)) ∧
    (∀ r2, validateUserCreate uc = .ok r2 → r2 = uc ∧ userCreateValid uc) ∧
    (¬ userUpdateValid uu →
      ∃ f, validateUserUpdate uu = .error (ValidationError.validationError f)) ∧
    (∀ r2, validateUserUpdate uu = .ok r2 → r2 = uu ∧ userUpdateValid uu) ∧
    (¬ userLoginValid ul →
      ∃ f, validateUserLogin ul = .error (ValidationError.validationError f)) ∧
    (∀ r2, validateUserLogin ul = .ok r2 → r2 = ul ∧ userLoginValid ul) ∧
    (¬ studentCreateValid sc →
      ∃ f, validateStudentCreate sc = .error (ValidationError.validationError f)) ∧
    (∀ r2, validateStudentCreate sc = .ok r2 → r2 = sc ∧ studentCreateValid sc) ∧
    (¬ studentUpdateValid su →
      ∃ f, validateStudentUpdate su = .error (ValidationError.validationError f)) ∧
    (∀ r2, validateStudentUpdate su = .ok r2 → r2 = su ∧ studentUpdateValid su) ∧
    (¬ schoolCreateValid sch →
      ∃ f, validateSchoolCreate sch = .error (ValidationError.validationError f)) ∧
    (∀ r2, validateSchoolCreate sch = .ok r2 → r2 = sch ∧ schoolCreateValid sch) ∧
    (¬ transferCreateValid tc →
      ∃ f, validateTransferCreate tc = .error (ValidationError.validationError f)) ∧
    (∀ r2, validateTransferCreate tc = .ok r2 → r2 = tc ∧ transferCreateValid tc) ∧
    (¬ transferUpdateValid tu →
      ∃ f, validateTransferUpdate tu = .error (ValidationError.validationError f)) ∧
    (∀ r2, validateTransferUpdate tu = .ok r2 → r2 = tu ∧ transferUpdateValid tu) ∧
    (¬ transferApprovalValid ta →
      ∃ f, validateTransferApproval ta = .error (ValidationError.validationError f)) ∧
    (∀ r2, validateTransferApproval ta = .ok r2 → r2 = ta ∧ transferApprovalValid ta) ∧
    (¬ documentUploadValid du →
      ∃ f, validateDocumentUpload du = .error (ValidationError.validationError f)) ∧
    (∀ r2, validateDocumentUpload du = .ok r2 → r2 = du ∧ documentUploadValid du) ∧
    (¬ notificationCreateValid nc →
      ∃ f, validateNotificationCreate nc = .error (ValidationError.validationError f)) ∧
    (∀ r2, validateNotificationCreate nc = .ok r2 → r2 = nc ∧ notificationCreateValid nc) ∧
    (¬ transferReportFilterValid rf →
      ∃ f, validateTransferReportFilter rf = .error (ValidationError.validationError f)) ∧
    (∀ r2, validateTransferReportFilter rf = .ok r2 → r2 = rf ∧ transferReportFilterValid rf) ∧
    (¬ transferCreateValid tc →
      ∃ f, createTransferRequest tc tn tid creatorId now =
        .error (ValidationError.validationError f)) ∧
    (∀ r2, validateUserCreate uc = .ok r2 → emailMatch r2.email = true) := by
  refine ⟨?_, validateUserCreate_ok_valid uc,
    ?_, validateUserUpdate_ok_inv uu,
    ?_, validateUserLogin_ok_inv ul,
    ?_, validateStudentCreate_ok_inv sc,
    ?_, validateStudentUpdate_ok_inv su,
    ?_, validateSchoolCreate_ok_inv sch,
    ?_, validateTransferCreate_ok_inv tc,
    ?_, validateTransferUpdate_ok_inv tu,
    ?_, validateTransferApproval_ok_inv ta,
    ?_, validateDocumentUpload_ok_inv du,
    ?_, validateNotificationCreate_ok_inv nc,
    ?_, validateTransferReportFilter_ok_inv rf,
    ?_, ?_⟩
  · exact fun hnv => validation_reject _
      (fun r2 hok => hnv (validateUserCreate_ok_valid uc r2 hok).2)
  · exact fun hnv => validation_reject _
      (fun r2 hok => hnv (validateUserUpdate_ok_inv uu r2 hok).2)
  · exact fun hnv => validation_reject _
      (fun r2 hok => hnv (validateUserLogin_ok_inv ul r2 hok).2)
  · exact fun hnv => validation_reject _
      (fun r2 hok => hnv (validateStudentCreate_ok_inv sc r2 hok).2)
  · exact fun hnv => validation_reject _
      (fun r2 hok => hnv (validateStudentUpdate_ok_inv su r2 hok).2)
  · exact fun hnv => validation_reject _
      (fun r2 hok => hnv (validateSchoolCreate_ok_inv sch r2 hok).2)
  · exact fun hnv => validation_reject _
      (fun r2 hok => hnv (validateTransferCreate_ok_inv tc r2 hok).2)
  · exact fun hnv => validation_reject _
      (fun r2 hok => hnv (validateTransferUpdate_ok_inv tu r2 hok).2)
  · exact fun hnv => validation_reject _
      (fun r2 hok => hnv (validateTransferApproval_ok_inv ta r2 hok).2)
  · exact fun hnv => validation_reject _
      (fun r2 hok => hnv (validateDocumentUpload_ok_inv du r2 hok).2)
  · exact fun hnv => validation_reject _
      (fun r2 hok => hnv (validateNotificationCreate_ok_inv nc r2 hok).2)
  · exact fun hnv => validation_reject _
      (fun r2 hok => hnv (validateTransferReportFilter_ok_inv rf r2 hok).2)
  · intro hnv
    obtain ⟨f, hf⟩ := validation_reject (validateTransferCreate tc)
      (fun r2 hok => hnv (validateTransferCreate_ok_inv tc r2 hok).2)
    refine ⟨f, ?_⟩
    unfold createTransferRequest
    rw [hf]
  · intro r2 hok
    obtain ⟨he, hv⟩ := validateUserCreate_ok_valid uc r2 hok
    subst he
    unfold userCreateValid at hv
    exact hv.2.2.1

theorem claim_C6_validation_boundary_witness :
    (∃ f, validateUserCreate sampleUserReqBadEmail =
      .error (ValidationError.validationError f)) ∧
    (∃ f, validateTransferCreate sampleTransferReqBadGrade =
      .error (ValidationError.validationError f)) ∧
    (∃ f, createTransferRequest sampleTransferReqBadGrade "TRF-2024-0003" 9 100 sampleNow =
      .error (ValidationError.validationError f)) ∧
    emailMatch sampleUserReq.email = true := by
  have H := claim_C6_validation_boundary sampleUserReqBadEmail default
    default default default default sampleTransferReqBadGrade default default
    default default default "TRF-2024-0003" 9 100 sampleNow
  have H2 := claim_C6_validation_boundary sampleUserReq default
    default default default default sampleTransferReqBadGrade default default
    default default default "TRF-2024-0003" 9 100 sampleNow
  refine ⟨H.1 (by unfold userCreateValid; decide),
    H.2.2.2.2.2.2.2.2.2.2.2.2.1 (by unfold transferCreateValid; decide),
    H.2.2.2.2.2.2.2.2.2.2.2.2.2.2.2.2.2.2.2.2.2.2.2.2.1
      (by unfold transferCreateValid; decide),
    H2.2.2.2.2.2.2.2.2.2.2.2.2.2.2.2.2.2.2.2.2.2.2.2.2.2 sampleUserReq rfl⟩

/-- C9: every accepted UserCreate request has a password between 8 and
100 characters, requests with a shorter or longer password are rejected
at the validation boundary, and the persistent User row constrains only
password_hash (max 255) with no minimum: a row with a 5-character hash
satisfies every declared User column constraint. -/
theorem claim_C9_password_bounds (r : UserCreate) :
    (∀ r2, validateUserCreate r = .ok r2 →
      8 ≤ r.password.length ∧ r.password.length ≤ 100) ∧
    ((r.password.length < 8 ∨ r.password.length > 100) →
      ∀ r2, validateUserCreate r ≠ .ok r2) ∧
    (∃ u : User, validUserRow u = true ∧ u.password_hash.length < 8) := by
  refine ⟨?_, ?_, ⟨sampleShortHashUser, by decide, by decide⟩⟩
  · intro r2 hok
    have hi := validateUserCreate_ok_inv r r2 hok
    exact ⟨hi.2.2.2.2.1, hi.2.2.2.2.2.1⟩
  · intro hv r2 hok
    have hi := validateUserCreate_ok_inv r r2 hok
    have h8 := hi.2.2.2.2.1
    have h100 := hi.2.2.2.2.2.1
    omega

theorem claim_C9_password_bounds_witness :
    (8 ≤ sampleUserReq.password.length ∧
      sampleUserReq.password.length ≤ 100) ∧
    validateUserCreate sampleUserReqShortPw ≠ .ok sampleUserReqShortPw ∧
    (∃ u : User, validUserRow u = true ∧ u.password_hash.length < 8) :=
  ⟨(claim_C9_password_bounds sampleUserReq).1 sampleUserReq rfl,
   (claim_C9_password_bounds sampleUserReqShortPw).2.1 (Or.inl (by decide))
     sampleUserReqShortPw,
   (claim_C9_password_bounds sampleUserReq).2.2⟩
